import Mathlib

set_option maxRecDepth 100000

/-!
Verification development for the Forge test-orchestration script
(`testsuite/forge.py`).  Every definition below is a shallow embedding of the
corresponding Python function; line numbers in the doc comments refer to the
source file.
-/

namespace ForgeSpec

/-- `ForgeState` (forge.py:231-236): the run-outcome enumeration. -/
inductive ForgeState where
  | RUNNING
  | PASS
  | FAIL
  | SKIP
  | EMPTY
deriving DecidableEq, Repr

/-- The `.value` of each enumeration member (the string each member carries). -/
def ForgeState.value : ForgeState → String
  | .RUNNING => "RUNNING"
  | .PASS => "PASS"
  | .FAIL => "FAIL"
  | .SKIP => "SKIP"
  | .EMPTY => "EMPTY"

/-- ASCII lower-casing of one character; models Python `str.lower` on the
ASCII-only strings this script manipulates. -/
def asciiLower (c : Char) : Char :=
  if 'A' ≤ c ∧ c ≤ 'Z' then Char.ofNat (c.toNat + 32) else c

/-- Lower-case a whole string (ASCII). -/
def strToLower (s : String) : String :=
  String.mk (s.toList.map asciiLower)

/-- Does `s` start with `pat`? (helper for the Python `in` operator). -/
def listStartsWith : List Char → List Char → Bool
  | _, [] => true
  | [], _ :: _ => false
  | c :: cs, p :: ps => c = p && listStartsWith cs ps

/-- Does `pat` occur as a contiguous substring of `s`?  Models the Python
expression `pat in s` on strings. -/
def listContainsSub : List Char → List Char → Bool
  | [], pat => listStartsWith [] pat
  | c :: rest, pat => listStartsWith (c :: rest) pat || listContainsSub rest pat

/-- Python `pat in s` for strings. -/
def strContains (s pat : String) : Bool :=
  listContainsSub s.toList pat.toList

/-- `ForgeResult.format` (forge.py:275-276):
`f"Forge {self.state.value.lower()}ed"`. -/
def forgeResultFormat (state : ForgeState) : String :=
  "Forge " ++ strToLower state.value ++ "ed"

/-- `RunResult` (forge.py:19-22): exit code plus captured output bytes
(each byte a `Nat < 256`). -/
structure RunResult where
  exit_code : Int
  output : List Nat
deriving DecidableEq, Repr

/-- Is `x` a UTF-8 continuation byte (`0x80-0xBF`)? -/
def utf8Cont (x : Nat) : Bool :=
  decide (0x80 ≤ x) && decide (x ≤ 0xBF)

/-- Allowed second byte of a three-byte UTF-8 sequence with leading byte `b`
(The `0xE0` and `0xED` rows of the standard table; excludes surrogates). -/
def utf8Second3 (b b1 : Nat) : Bool :=
  if b = 0xE0 then decide (0xA0 ≤ b1) && decide (b1 ≤ 0xBF)
  else if b = 0xED then decide (0x80 ≤ b1) && decide (b1 ≤ 0x9F)
  else utf8Cont b1

/-- Allowed second byte of a four-byte UTF-8 sequence with leading byte `b`. -/
def utf8Second4 (b b1 : Nat) : Bool :=
  if b = 0xF0 then decide (0x90 ≤ b1) && decide (b1 ≤ 0xBF)
  else if b = 0xF4 then decide (0x80 ≤ b1) && decide (b1 ≤ 0x8F)
  else utf8Cont b1

/-- Strict UTF-8 decoding of a byte sequence into a list of code points;
`none` on invalid input.  Models Python `bytes.decode("utf-8")`. -/
def utf8Decode : List Nat → Option (List Nat)
  | [] => some []
  | b :: rest =>
    if b ≤ 0x7F then
      (utf8Decode rest).map (fun cps => b :: cps)
    else if decide (0xC2 ≤ b) && decide (b ≤ 0xDF) then
      match rest with
      | b1 :: rest2 =>
        if utf8Cont b1 then
          (utf8Decode rest2).map (fun cps => ((b - 0xC0) * 0x40 + (b1 - 0x80)) :: cps)
        else none
      | [] => none
    else if decide (0xE0 ≤ b) && decide (b ≤ 0xEF) then
      match rest with
      | b1 :: b2 :: rest3 =>
        if utf8Second3 b b1 && utf8Cont b2 then
          (utf8Decode rest3).map
            (fun cps => ((b - 0xE0) * 0x1000 + (b1 - 0x80) * 0x40 + (b2 - 0x80)) :: cps)
        else none
      | _ => none
    else if decide (0xF0 ≤ b) && decide (b ≤ 0xF4) then
      match rest with
      | b1 :: b2 :: b3 :: rest4 =>
        if utf8Second4 b b1 && utf8Cont b2 && utf8Cont b3 then
          (utf8Decode rest4).map
            (fun cps =>
              ((b - 0xF0) * 0x40000 + (b1 - 0x80) * 0x1000 +
                (b2 - 0x80) * 0x40 + (b3 - 0x80)) :: cps)
        else none
      | _ => none
    else none

/-- The error raised by `RunResult.unwrap`: either the `Exception` carrying the
decoded output (forge.py:26), or a decoding error when the output bytes are
not valid UTF-8 (in which case Python's `decode` itself raises). -/
inductive UnwrapErr where
  | runFailure (msg : List Nat)
  | decodeFailure
deriving DecidableEq, Repr

/-- Result of `RunResult.unwrap`: a returned value or a raised error. -/
inductive UnwrapRes where
  | ok (output : List Nat)
  | error (e : UnwrapErr)
deriving DecidableEq, Repr

/-- `RunResult.unwrap` (forge.py:24-27): raise on non-zero exit code with the
UTF-8-decoded output as the message, otherwise return the output unchanged. -/
def RunResult.unwrap (r : RunResult) : UnwrapRes :=
  if r.exit_code ≠ 0 then
    match utf8Decode r.output with
    | some msg => .error (.runFailure msg)
    | none => .error .decodeFailure
  else .ok r.output

/-- Python regex whitespace class for ASCII input (`\s`). -/
def pySpace (c : Char) : Bool :=
  c = ' ' || c = '\t' || c = '\n' || c = '\r' || c = '\x0b' || c = '\x0c'

/-- After an occurrence of `not`, skip any run of whitespace and test for a
following `found` (the `\s*found` part of the pattern). -/
def foundAfterWs : List Char → Bool
  | [] => false
  | c :: rest =>
    if pySpace c then foundAfterWs rest
    else listStartsWith (c :: rest) [ 'f', 'o', 'u', 'n', 'd' ]

/-- Does the pattern `not\s*found` match anywhere in the (already
lower-cased) string?  Models `re.findall(r"not\s*found", s, re.IGNORECASE)`
being non-empty (forge.py:620). -/
def notFoundSearch : List Char → Bool
  | [] => false
  | c :: rest =>
    (if listStartsWith (c :: rest) [ 'n', 'o', 't' ] then foundAfterWs (rest.drop 2)
     else false) || notFoundSearch rest

/-- One iteration of the phase dispatch in `K8sForgeRunner.run`
(forge.py:616-623): `none` means the `running` branch (`continue`, keep
polling); otherwise the state assigned by the `elif` chain. -/
def classifyPhase (forge_status : String) : Option ForgeState :=
  if strContains forge_status "running" then none
  else if strContains forge_status "succeeded" then some .PASS
  else if notFoundSearch forge_status.toList then some .SKIP
  else some .FAIL

/-- Outcome of the bounded polling loop: a resolved state after a number of
polls, the `Exhausted attempt to get forge pod status` exception after a
number of polls, or no answer within the modelling fuel (the loop is still
running). -/
inductive PollResult where
  | resolved (state : ForgeState) (polls : Nat)
  | exhausted (polls : Nat)
  | outOfFuel
deriving DecidableEq, Repr

/-- The polling loop of `K8sForgeRunner.run` (forge.py:608-627).  `stream n`
is the decoded pod-phase string returned by the n-th `kubectl get pod` call;
`polls` counts calls made so far; `attempts` is the counter initialised to
100.  Crucially, mirroring the source, the `running` branch `continue`s
without touching `attempts`, and `attempts` is decremented (followed by the
`<= 0` exhaustion check) only in an iteration that assigned a state. -/
def pollLoop (stream : Nat → String) (polls attempts fuel : Nat) : PollResult :=
  match fuel with
  | 0 => .outOfFuel
  | fuel + 1 =>
    let forge_status := strToLower (stream polls)
    match classifyPhase forge_status with
    | none => pollLoop stream (polls + 1) attempts fuel
    | some st =>
      let attempts' := attempts - 1
      if attempts' ≤ 0 then .exhausted (polls + 1)
      else .resolved st (polls + 1)

/-- The loop as entered by `K8sForgeRunner.run`: `attempts = 100`
(forge.py:609). -/
def k8sPollLoop (stream : Nat → String) (fuel : Nat) : PollResult :=
  pollLoop stream 0 100 fuel

/-- A scripted sequence of pod-phase strings (missing entries default to an
empty phase). -/
def scriptStream (script : List String) (i : Nat) : String :=
  script.getD i ""

/-- The mutable fields of a `ForgeResult` (forge.py:239-243).  `output` is
`none` while unset or set to Python `None` (for a never-assigned attribute
the source's `result.output is None` check itself raises `AttributeError`;
the model folds that error into the structural didnt-record-output error,
both being exceptions raised by the same check line); `startTime`/`endTime`
are `none` until stamped (times are abstracted to naturals). -/
structure ForgeResultM where
  state : ForgeState
  output : Option String
  startTime : Option Nat
  endTime : Option Nat
deriving DecidableEq, Repr

/-- Overall outcome of `ForgeResult.with_context`
(forge.py:256-267): the fully stamped result, one of the two structural
invariant-check exceptions raised after the block, or an exception raised by
the wrapped block itself and propagated to the caller. -/
inductive WithContextOutcome where
  | ok (r : ForgeResultM)
  | structuralError (msg : String)
  | blockError (msg : String)
deriving DecidableEq, Repr

/-- What the wrapped block does to the yielded result: mutate it and return
normally, or raise an exception (carried as a message string). -/
def BlockAction : Type := ForgeResultM → ForgeResultM ⊕ String

/-- `ForgeResult.with_context` (forge.py:256-267).  The generator body is:
allocate the result in `RUNNING` with `start_time` stamped, `yield`, stamp
`end_time`, then run the two invariant checks.  There is no `try/finally`
around the `yield`: when the wrapped block raises, `contextmanager.__exit__`
throws the exception into the generator at the `yield`, the lines after the
`yield` never run, and the original exception propagates — this is modelled
by the `.inr` branch returning the block's exception directly. -/
def withContext (now1 now2 : Nat) (block : BlockAction) : WithContextOutcome :=
  let r0 : ForgeResultM :=
    { state := .RUNNING, output := none, startTime := some now1, endTime := none }
  match block r0 with
  | .inr e => .blockError e
  | .inl r1 =>
    let r2 := { r1 with endTime := some now2 }
    if r2.state = .PASS ∨ r2.state = .FAIL ∨ r2.state = .SKIP then
      if r2.output = none then .structuralError "Forge result didnt record output"
      else .ok r2
    else .structuralError "Forge result never entered terminal state"

/-- Python `s.lstrip(chars)`: remove the longest leading run of characters
drawn from the set `chars` (not the leading occurrence of `chars` as a
word). -/
def pyLstrip (s chars : String) : String :=
  String.mk (s.toList.dropWhile (fun c => chars.toList.contains c))

/-- `ForgeContext.forge_chain_name` (forge.py:333-338):
`forge_namespace.lstrip("aptos-")`, then append `net` when the result does
not contain `forge`. -/
def forgeChainName (forge_namespace : String) : String :=
  let n := pyLstrip forge_namespace "aptos-"
  if strContains n "forge" then n else n ++ "net"

/-- A live OS process as seen by the cleanup code (only its name matters). -/
structure ProcInfo where
  name : String
deriving DecidableEq, Repr

/-- The process world around one `LocalForgeRunner.run` call:
`contextProcesses` is what the injected `context.processes` capability would
yield; `systemProcesses` is what a direct `psutil.process_iter()` call
yields. -/
structure LocalRunnerEnv where
  contextProcesses : List ProcInfo
  systemProcesses : List ProcInfo
deriving DecidableEq, Repr

/-- Effects of the cleanup block at the end of `LocalForgeRunner.run`. -/
structure CleanupEffect where
  killed : List ProcInfo
  portForwardTerminated : Bool
  portForwardJoined : Bool
deriving DecidableEq, Repr

/-- The cleanup block of `LocalForgeRunner.run` (forge.py:549-556), executed
after the scoped block: when `keep_args` is empty (`if not
context.keep_args`), iterate `psutil.process_iter()` — note: the source
calls `psutil` directly here and never consults the `context.processes`
capability, which is why `env.contextProcesses` does not occur on the
right-hand side — kill every process whose name contains `kubectl`, then
terminate and join the port-forward process; otherwise do nothing. -/
def localRunnerCleanup (keep_args : List String) (env : LocalRunnerEnv) : CleanupEffect :=
  if keep_args = [] then
    { killed := env.systemProcesses.filter (fun p => strContains p.name "kubectl"),
      portForwardTerminated := true,
      portForwardJoined := true }
  else
    { killed := [], portForwardTerminated := false, portForwardJoined := false }

/-- Python `str.splitlines` on the line terminators this script can see
(`\n`, `\r`, `\r\n`); a trailing terminator yields no extra empty line. -/
def splitlinesAux : List Char → List Char → List (List Char)
  | [], acc => if acc.isEmpty then [] else [ acc.reverse ]
  | '\r' :: '\n' :: rest, acc => acc.reverse :: splitlinesAux rest []
  | '\r' :: rest, acc => acc.reverse :: splitlinesAux rest []
  | '\n' :: rest, acc => acc.reverse :: splitlinesAux rest []
  | c :: rest, acc => splitlinesAux rest (c :: acc)

/-- `str.splitlines` as a list of line strings. -/
def splitlinesStr (s : String) : List String :=
  (splitlinesAux s.toList []).map String.mk

/-- Python `sep.join(xs)`. -/
def pyJoin (sep : String) : List String → String
  | [] => ""
  | [ x ] => x
  | x :: y :: rest => x ++ sep ++ pyJoin sep (y :: rest)

/-- The opening sentinel line of the embedded report (forge.py:354). -/
def REPORT_BEGIN : String := "====json-report-begin==="

/-- The closing sentinel line of the embedded report (forge.py:354). -/
def REPORT_END : String := "====json-report-end==="

/-- Is this line one of the two sentinel lines?  Models the membership test
`line in ("====json-report-begin===", "====json-report-end===")`. -/
def isSentinel (line : String) : Bool :=
  line = REPORT_BEGIN || line = REPORT_END

/-- The line-collection loop of `format_report` (forge.py:352-357): a
sentinel line toggles `recording`; other lines are appended exactly when
`recording` holds. -/
def collectReportLines : List String → Bool → List String
  | [], _ => []
  | line :: rest, recording =>
    if isSentinel line then collectReportLines rest (!recording)
    else if recording then line :: collectReportLines rest recording
    else collectReportLines rest recording

/-- JSON values, as produced by `json.loads` (numbers restricted to the
integers; no non-integer literal occurs in this development's inputs). -/
inductive JVal where
  | jnull
  | jbool (b : Bool)
  | jnum (n : Int)
  | jstr (s : String)
  | jarr (elems : List JVal)
  | jobj (fields : List (String × JVal))

/-- Skip JSON whitespace (space, tab, newline, carriage return). -/
def skipWs : List Char → List Char
  | [] => []
  | c :: rest =>
    if c = ' ' || c = '\t' || c = '\n' || c = '\r' then skipWs rest
    else c :: rest

/-- Result of parsing one syntactic piece: the parsed datum plus the
unconsumed input, or a parse-error message. -/
inductive PRes (α : Type) where
  | ok (v : α) (rest : List Char)
  | err (msg : String)

/-- Parse the body of a JSON string after its opening quote; returns the
string and the input after the closing quote.  Raw control characters and
unknown escapes are rejected, as `json.loads` does in strict mode. -/
def parseStringBody : List Char → List Char → PRes String
  | [], _ => .err "Unterminated string"
  | '"' :: rest, acc => .ok (String.mk acc.reverse) rest
  | '\\' :: e :: rest, acc =>
    if e = '"' then parseStringBody rest ('"' :: acc)
    else if e = '\\' then parseStringBody rest ('\\' :: acc)
    else if e = '/' then parseStringBody rest ('/' :: acc)
    else if e = 'n' then parseStringBody rest ('\n' :: acc)
    else if e = 't' then parseStringBody rest ('\t' :: acc)
    else if e = 'r' then parseStringBody rest ('\r' :: acc)
    else if e = 'b' then parseStringBody rest ('\x08' :: acc)
    else if e = 'f' then parseStringBody rest ('\x0c' :: acc)
    else .err "Invalid escape"
  | [ '\\' ], _ => .err "Unterminated string"
  | c :: rest, acc =>
    if c.toNat < 0x20 then .err "Invalid control character"
    else parseStringBody rest (c :: acc)

/-- Consume a maximal run of decimal digits. -/
def takeDigits : List Char → List Char × List Char
  | [] => ([], [])
  | c :: rest =>
    if c.isDigit then
      let (ds, r) := takeDigits rest
      (c :: ds, r)
    else ([], c :: rest)

/-- Digits to a natural number. -/
def digitsToNat (ds : List Char) : Nat :=
  ds.foldl (fun a c => a * 10 + (c.toNat - 48)) 0

/-- Parse a JSON integer literal starting at the current position. -/
def parseNumberTail (cs : List Char) : PRes JVal :=
  let (neg, cs1) := match cs with
    | '-' :: r => (true, r)
    | _ => (false, cs)
  let (ds, cs2) := takeDigits cs1
  if ds.isEmpty then .err "Expecting value"
  else
    match cs2 with
    | '.' :: _ => .err "non-integer number"
    | 'e' :: _ => .err "non-integer number"
    | 'E' :: _ => .err "non-integer number"
    | _ =>
      let n : Int := digitsToNat ds
      .ok (.jnum (if neg then -n else n)) cs2

/-- A pending parsing request: a value, the items of an array after its
first element position, or the members of an object. -/
inductive PReq where
  | val (cs : List Char)
  | arrItems (cs : List Char) (acc : List JVal)
  | objItems (cs : List Char) (acc : List (String × JVal))

/-- Recursive-descent JSON parser, fuelled to make the recursion structural.
The error messages name the same failure CPython's `json.JSONDecodeError`
reports at the same position, with simpler wording. -/
def parseStep : Nat → PReq → PRes JVal
  | 0, _ => .err "maximum recursion depth exceeded"
  | fuel + 1, .val cs =>
    match skipWs cs with
    | [] => .err "Expecting value"
    | c :: rest =>
      if c = 'n' then
        if listStartsWith rest [ 'u', 'l', 'l' ] then .ok .jnull (rest.drop 3)
        else .err "Expecting value"
      else if c = 't' then
        if listStartsWith rest [ 'r', 'u', 'e' ] then .ok (.jbool true) (rest.drop 3)
        else .err "Expecting value"
      else if c = 'f' then
        if listStartsWith rest [ 'a', 'l', 's', 'e' ] then .ok (.jbool false) (rest.drop 4)
        else .err "Expecting value"
      else if c = '"' then
        match parseStringBody rest [] with
        | .ok s r => .ok (.jstr s) r
        | .err e => .err e
      else if c = '[' then
        match skipWs rest with
        | ']' :: r => .ok (.jarr []) r
        | cs2 => parseStep fuel (.arrItems cs2 [])
      else if c = '\x7b' then
        match skipWs rest with
        | '\x7d' :: r => .ok (.jobj []) r
        | cs2 => parseStep fuel (.objItems cs2 [])
      else parseNumberTail (c :: rest)
  | fuel + 1, .arrItems cs acc =>
    match parseStep fuel (.val cs) with
    | .err e => .err e
    | .ok v r =>
      match skipWs r with
      | ',' :: r2 => parseStep fuel (.arrItems r2 (v :: acc))
      | ']' :: r2 => .ok (.jarr (v :: acc).reverse) r2
      | _ => .err "Expecting comma delimiter"
  | fuel + 1, .objItems cs acc =>
    match skipWs cs with
    | '"' :: r =>
      match parseStringBody r [] with
      | .err e => .err e
      | .ok key r2 =>
        match skipWs r2 with
        | ':' :: r3 =>
          match parseStep fuel (.val r3) with
          | .err e => .err e
          | .ok v r4 =>
            match skipWs r4 with
            | ',' :: r5 => parseStep fuel (.objItems r5 ((key, v) :: acc))
            | '\x7d' :: r5 => .ok (.jobj ((key, v) :: acc).reverse) r5
            | _ => .err "Expecting comma delimiter"
        | _ => .err "Expecting colon delimiter"
    | _ => .err "Expecting property name enclosed in double quotes"

/-- Result of `json.loads`: a value or a raised `JSONDecodeError` message. -/
inductive JLoadRes where
  | ok (v : JVal)
  | err (msg : String)

/-- `json.loads`: parse one value, demand only whitespace afterwards. -/
def jsonLoads (s : String) : JLoadRes :=
  match parseStep (2 * s.length + 8) (.val s.toList) with
  | .err e => .err e
  | .ok v rest => if (skipWs rest).isEmpty then .ok v else .err "Extra data"

/-- Does `jsonLoads` succeed? (scaffolding for concrete checks). -/
def jsonParses (s : String) : Bool :=
  match jsonLoads s with
  | .ok _ => true
  | .err _ => false

/-- Python `dict.get("text")` on the loaded JSON value: `none` when the key
is absent; with duplicate keys the last occurrence wins (as in a Python
dict built by `json.loads`). -/
def objLookup (fields : List (String × JVal)) (key : String) : Option JVal :=
  fields.foldl (fun acc kv => if kv.1 = key then some kv.2 else acc) none

/-- Result of the attribute access `.get("text")`: the looked-up value, or a
raised `AttributeError` message. -/
inductive GetRes where
  | ok (v : Option JVal)
  | err (msg : String)

/-- `json.loads(...).get("text")` (forge.py:362).  On a non-object value the
attribute access `.get` raises (`AttributeError`), which the surrounding
`except` turns into the malformed-report diagnostic; the error message
models `str(e)` for that case. -/
def jGetText : JVal → GetRes
  | .jobj fields => .ok (objLookup fields "text")
  | _ => .err "value has no attribute get"

/-- Python truthiness of a JSON value (`if not report_text`). -/
def jTruthy : JVal → Bool
  | .jnull => false
  | .jbool b => b
  | .jnum n => n != 0
  | .jstr s => s != ""
  | .jarr es => !es.isEmpty
  | .jobj fs => !fs.isEmpty

/-- The value returned for a truthy report text.  The spec's sentinel
protocol guarantees a string here; a non-string truthy value is returned
by the source as a raw object (a latent type confusion outside every
claim), rendered here by a fixed placeholder per shape. -/
def jAsText : JVal → String
  | .jstr s => s
  | .jnull => "None"
  | .jbool true => "True"
  | .jbool false => "False"
  | .jnum n => n.repr
  | .jarr _ => "[...]"
  | .jobj _ => "\x7b...\x7d"

/-- `format_report` (forge.py:350-368): collect the sentinel-delimited lines
of `result.output`, then return the `text` field of the embedded JSON
report, or one of the three diagnostic strings. -/
def format_report (output : String) : String :=
  let report_lines := collectReportLines (splitlinesStr output) false
  if report_lines.isEmpty then "Forge test runner terminated"
  else
    match jsonLoads (pyJoin "" report_lines) with
    | .err e => "Forge report malformed: " ++ e ++ "\n" ++ pyJoin "\n" report_lines
    | .ok v =>
      match jGetText v with
      | .err e => "Forge report malformed: " ++ e ++ "\n" ++ pyJoin "\n" report_lines
      | .ok none => "Forge report text empty. See test runner output."
      | .ok (some t) =>
        if jTruthy t then jAsText t
        else "Forge report text empty. See test runner output."

/-- o11y constant (forge.py:147). -/
def INTERN_ES_DEFAULT_INDEX : String := "90037930-aafc-11ec-acce-2d961187411f"

/-- o11y constant (forge.py:148). -/
def INTERN_ES_BASE_URL : String := "https://es.intern.aptosdev.com"

/-- o11y constant (forge.py:149-152). -/
def INTERN_GRAFANA_BASE_URL : String :=
  "https://o11y.aptosdev.com/grafana/d/overview/overview?orgId=1&refresh=10s&" ++
  "var-Datasource=Remote%20Prometheus%20Intern"

/-- o11y constant (forge.py:153). -/
def DEVINFRA_ES_DEFAULT_INDEX : String := "d0bc5e20-badc-11ec-9a50-89b84ac337af"

/-- o11y constant (forge.py:154). -/
def DEVINFRA_ES_BASE_URL : String := "https://es.devinfra.aptosdev.com"

/-- o11y constant (forge.py:155-158). -/
def DEVINFRA_GRAFANA_BASE_URL : String :=
  "https://o11y.aptosdev.com/grafana/d/overview/overview?orgId=1&refresh=10s&" ++
  "var-Datasource=Remote%20Prometheus%20Devinfra"

/-- A `datetime` value as used by the link builders (only the displayed
fields matter; `microsecond < 1000000`). -/
structure PyDateTime where
  year : Nat
  month : Nat
  day : Nat
  hour : Nat
  minute : Nat
  second : Nat
  microsecond : Nat
deriving DecidableEq, Repr

/-- Zero-pad a natural to two digits. -/
def pad2 (n : Nat) : String :=
  if n < 10 then "0" ++ Nat.repr n else Nat.repr n

/-- Zero-pad a natural to four digits. -/
def pad4 (n : Nat) : String :=
  if n < 10 then "000" ++ Nat.repr n
  else if n < 100 then "00" ++ Nat.repr n
  else if n < 1000 then "0" ++ Nat.repr n
  else Nat.repr n

/-- `dt.strftime("%Y-%m-%dT%H:%M:%S.000Z")` (forge.py:383-384, also
`get_utc_timestamp`). -/
def strftimeUtcZ (dt : PyDateTime) : String :=
  pad4 dt.year ++ "-" ++ pad2 dt.month ++ "-" ++ pad2 dt.day ++ "T" ++
  pad2 dt.hour ++ ":" ++ pad2 dt.minute ++ ":" ++ pad2 dt.second ++ ".000Z"

/-- The `time_filter` argument: `Union[bool, Tuple[datetime, datetime]]`. -/
inductive TimeFilter where
  | bool (b : Bool)
  | pair (t0 t1 : PyDateTime)
deriving DecidableEq, Repr

/-- A link builder's outcome: the built link, or the raised
`Invalid refresh argument` exception. -/
inductive LinkRes where
  | ok (link : String)
  | raised (msg : String)
deriving DecidableEq, Repr

/-- The `es_time_filter` dispatch of `get_validator_logs_link`
(forge.py:380-387). -/
def esTimeFilter : TimeFilter → LinkRes
  | .bool true =>
    .ok "refreshInterval:(pause:!f,value:10000),time:(from:now-15m,to:now)"
  | .pair t0 t1 =>
    .ok ("refreshInterval:(pause:!t,value:0),time:(from:\x27" ++ strftimeUtcZ t0 ++
      "\x27,to:\x27" ++ strftimeUtcZ t1 ++ "\x27)")
  | .bool false => .raised "Invalid refresh argument: False"

/-- `.replace(" ", "").replace("\n", "")` (forge.py:436). -/
def stripSpacesNewlines (s : String) : String :=
  String.mk (s.toList.filter (fun c => c ≠ ' ' ∧ c ≠ '\n'))

/-- The f-string template of `get_validator_logs_link` (forge.py:389-435),
reproduced with its interstitial whitespace reduced to single newlines —
immaterial, since the source erases every space and newline before
returning. -/
def validatorLinkBody (es_base_url es_time_filter es_default_index
    forge_chain_name forge_namespace val0_hostname : String) : String :=
  "\n" ++ es_base_url ++ "/_dashboards/app/discover#/?\n" ++
  "_g=(filters:!(), " ++ es_time_filter ++ ")\n" ++
  "&_a=(\n" ++
  "columns:!(_source),\n" ++
  "filters:!((\n" ++
  "\x27$state\x27:(store:appState),\n" ++
  "meta:(\n" ++
  "alias:!n,\n" ++
  "disabled:!f,\n" ++
  "index:\x27" ++ es_default_index ++ "\x27,\n" ++
  "key:chain_name,\n" ++
  "negate:!f,\n" ++
  "params:(query:" ++ forge_chain_name ++ "),\n" ++
  "type:phrase\n" ++
  "),\n" ++
  "query:(match_phrase:(chain_name:" ++ forge_chain_name ++ "))\n" ++
  "),\n" ++
  "(\n" ++
  "\x27$state\x27:(store:appState),\n" ++
  "meta:(\n" ++
  "alias:!n,\n" ++
  "disabled:!f,\n" ++
  "index:\x27" ++ es_default_index ++ "\x27,\n" ++
  "key:namespace,\n" ++
  "negate:!f,\n" ++
  "params:(query:" ++ forge_namespace ++ "),\n" ++
  "type:phrase\n" ++
  "),\n" ++
  "query:(match_phrase:(namespace:" ++ forge_namespace ++ "))\n" ++
  "),\n" ++
  "(\n" ++
  "\x27$state\x27:(store:appState),\n" ++
  "meta:(\n" ++
  "alias:!n,\n" ++
  "disabled:!f,\n" ++
  "index:\x27" ++ es_default_index ++ "\x27,\n" ++
  "key:hostname,\n" ++
  "negate:!f,\n" ++
  "params:(query:" ++ val0_hostname ++ "),\n" ++
  "type:phrase),\n" ++
  "query:(match_phrase:(hostname:" ++ val0_hostname ++ ")\n" ++
  ")\n" ++
  ")),\n" ++
  "index:\x27" ++ es_default_index ++ "\x27,\n" ++
  "interval:auto,query:(language:kuery,query:\x27\x27),sort:!()\n" ++
  ")\n"

/-- `get_validator_logs_link` (forge.py:371-436). -/
def get_validator_logs_link (forge_namespace forge_chain_name : String)
    (time_filter : TimeFilter) : LinkRes :=
  let es_base_url :=
    if strContains forge_chain_name "forge" then DEVINFRA_ES_BASE_URL
    else INTERN_ES_BASE_URL
  let es_default_index :=
    if strContains forge_chain_name "forge" then DEVINFRA_ES_DEFAULT_INDEX
    else INTERN_ES_DEFAULT_INDEX
  let val0_hostname := "aptos-node-0-validator-0"
  match esTimeFilter time_filter with
  | .raised e => .raised e
  | .ok es_time_filter =>
    .ok (stripSpacesNewlines (validatorLinkBody es_base_url es_time_filter
      es_default_index forge_chain_name forge_namespace val0_hostname))

/-- Strip trailing `0` characters. -/
def trimTrailingZeros (s : String) : String :=
  String.mk ((s.toList.reverse.dropWhile (fun c => c = '0')).reverse)

/-- Zero-pad a natural to three digits. -/
def pad3 (n : Nat) : String :=
  if n < 10 then "00" ++ Nat.repr n
  else if n < 100 then "0" ++ Nat.repr n
  else Nat.repr n

/-- The decimal rendering of `int(dt.strftime("%f")) / 1000` (forge.py:448):
the microsecond field over 1000, a float printed by `repr` with its
shortest round-tripping decimal — for `us < 10^6` that is the exact
quotient with trailing zeros trimmed, and at least one fractional digit. -/
def msRepr (us : Nat) : String :=
  let frac := trimTrailingZeros (pad3 (us % 1000))
  Nat.repr (us / 1000) ++ "." ++ (if frac = "" then "0" else frac)

/-- The `grafana_time_filter` dispatch of `get_dashboard_link`
(forge.py:445-453); in the tuple case the source passes
`milliseconds(time_filter[i])` — the microsecond-within-second over 1000 —
as the `from`/`to` values. -/
def grafanaTimeFilter : TimeFilter → LinkRes
  | .bool true => .ok "&refresh=10s&from=now-15m&to=now"
  | .pair t0 t1 =>
    .ok ("&from=" ++ msRepr t0.microsecond ++ "&to=" ++ msRepr t1.microsecond)
  | .bool false => .raised "Invalid refresh argument: False"

/-- `get_dashboard_link` (forge.py:439-456). -/
def get_dashboard_link (forge_cluster_name forge_namespace forge_chain_name : String)
    (time_filter : TimeFilter) : LinkRes :=
  match grafanaTimeFilter time_filter with
  | .raised e => .raised e
  | .ok grafana_time_filter =>
    let base_url :=
      if strContains forge_cluster_name "forge" then DEVINFRA_GRAFANA_BASE_URL
      else INTERN_GRAFANA_BASE_URL
    .ok (base_url ++ "&var-namespace=" ++ forge_namespace ++
      "&var-chain_name=" ++ forge_chain_name ++ grafana_time_filter)

/-- Does a built link contain a given fragment? (`.raised` contains
nothing). -/
def linkContains (l : LinkRes) (frag : String) : Bool :=
  match l with
  | .ok s => strContains s frag
  | .raised _ => false

/-! ## Claim theorems -/

/-- C1: the claim says `ForgeResult.with_context` stamps `end_time` and runs
the terminal-state / non-null-output invariant check on every exit path,
including a wrapped block that raises.  The generator body of
`with_context` has no `try/finally` around its `yield`, so a raising block
propagates its own exception and the post-`yield` stamping and checks are
skipped: the first conjunct shows a raising block produces the block's own
error (not a structural error, not a stamped result).  The other conjuncts
show the checks do run on the normal-return path, which is the behaviour
the spec intended for every path. -/
theorem c1_with_context_raising_block_skips_invariant_check :
    withContext 0 1 (fun _ => .inr "boom") = .blockError "boom" ∧
    withContext 0 1 (fun r => .inl { r with state := .PASS, output := some "out" }) =
      .ok { state := .PASS, output := some "out", startTime := some 0, endTime := some 1 } ∧
    withContext 0 1 (fun r => .inl r) =
      .structuralError "Forge result never entered terminal state" ∧
    withContext 0 1 (fun r => .inl { r with state := .FAIL }) =
      .structuralError "Forge result didnt record output" := by
  refine ⟨by decide, by decide, by decide, by decide⟩

/-- Under `attempts = 100`, the polling loop can never raise the
budget-exhaustion error: the counter is decremented only in the iteration
that resolves a state, and the loop exits right afterwards. -/
theorem pollLoop_no_exhaust (stream : Nat → String) (fuel : Nat) :
    ∀ polls p, pollLoop stream polls 100 fuel ≠ .exhausted p := by
  induction fuel with
  | zero =>
    intro polls p h
    simp [pollLoop] at h
  | succ n ih =>
    intro polls p h
    rw [pollLoop] at h
    cases hc : classifyPhase (strToLower (stream polls)) with
    | none =>
      rw [hc] at h
      exact ih (polls + 1) p h
    | some st =>
      rw [hc] at h
      simp at h

/-- A perpetual `running` phase is repolled forever: for every fuel bound
the loop is still unresolved. -/
theorem pollLoop_const_running (fuel : Nat) :
    ∀ polls, pollLoop (fun _ => "running") polls 100 fuel = .outOfFuel := by
  induction fuel with
  | zero => intro polls; rfl
  | succ n ih =>
    intro polls
    have hstep : pollLoop (fun _ => "running") polls 100 (n + 1) =
        pollLoop (fun _ => "running") (polls + 1) 100 n := by
      rw [pollLoop]
      have hc : classifyPhase (strToLower "running") = none := by decide
      rw [hc]
    rw [hstep, ih]

/-- C2: the claim says 100 consecutive polls matching none of
running / succeeded / not-found raise the budget-exhaustion fatal error,
and the loop never exceeds 100 polls without resolving or raising.  In the
source the attempt counter is decremented only in an iteration that
assigned a state, and the loop exits immediately after assigning one, so:
a phase matching none of the three resolves to FAIL on the very first poll
(first conjunct); a perpetual `running` phase is polled without any bound
(second conjunct); and with the initial budget of 100 the exhaustion error
is unreachable for every phase stream (third conjunct). -/
theorem c2_poll_budget_not_enforced :
    k8sPollLoop (fun _ => "pending") 200 = .resolved .FAIL 1 ∧
    (∀ fuel, k8sPollLoop (fun _ => "running") fuel = .outOfFuel) ∧
    ∀ stream fuel polls p, pollLoop stream polls 100 fuel ≠ .exhausted p := by
  refine ⟨by decide, fun fuel => pollLoop_const_running fuel 0,
    fun stream fuel polls p => pollLoop_no_exhaust stream fuel polls p⟩

/-- C3: phase classification follows the source's tie-break order — a phase
containing `running` keeps polling; otherwise `succeeded` resolves PASS;
otherwise a `not\s*found` match resolves SKIP; otherwise FAIL — and on the
scripted phase sequences `["running", "running", "succeeded"]` the loop
resolves PASS after exactly 3 polls, while `["notfound"]` resolves SKIP on
poll 1. -/
theorem c3_phase_classification_and_scripts :
    (∀ s, strContains s "running" = true → classifyPhase s = none) ∧
    (∀ s, strContains s "running" = false → strContains s "succeeded" = true →
      classifyPhase s = some .PASS) ∧
    (∀ s, strContains s "running" = false → strContains s "succeeded" = false →
      notFoundSearch s.toList = true → classifyPhase s = some .SKIP) ∧
    (∀ s, strContains s "running" = false → strContains s "succeeded" = false →
      notFoundSearch s.toList = false → classifyPhase s = some .FAIL) ∧
    k8sPollLoop (scriptStream [ "running", "running", "succeeded" ]) 200 =
      .resolved .PASS 3 ∧
    k8sPollLoop (scriptStream [ "notfound" ]) 200 = .resolved .SKIP 1 := by
  refine ⟨?_, ?_, ?_, ?_, by decide, by decide⟩
  · intro s h1
    simp [classifyPhase, h1]
  · intro s h1 h2
    simp [classifyPhase, h1, h2]
  · intro s h1 h2 h3
    have h3' : notFoundSearch s.data = true := h3
    simp [classifyPhase, h1, h2, h3']
  · intro s h1 h2 h3
    have h3' : notFoundSearch s.data = false := h3
    simp [classifyPhase, h1, h2, h3']

/-- Witness for C3 at concrete phase strings. -/
theorem c3_phase_classification_witness :
    classifyPhase "pod is running" = none ∧
    classifyPhase "succeeded" = some .PASS ∧
    classifyPhase "error: notfound" = some .SKIP ∧
    classifyPhase "pending" = some .FAIL :=
  ⟨c3_phase_classification_and_scripts.1 _ (by decide),
   c3_phase_classification_and_scripts.2.1 _ (by decide) (by decide),
   c3_phase_classification_and_scripts.2.2.1 _ (by decide) (by decide) (by decide),
   c3_phase_classification_and_scripts.2.2.2.1 _ (by decide) (by decide) (by decide)⟩

/-- C4: for every `RunResult`, a zero exit code makes `unwrap` return the
stored output bytes unchanged without raising, and a non-zero exit code
makes `unwrap` raise — with the UTF-8 decoding of the output as the
message whenever the output decodes (on undecodable bytes Python's
`decode` itself is what raises; `unwrap` still never returns). -/
theorem c4_unwrap_spec (r : RunResult) :
    (r.exit_code = 0 → r.unwrap = .ok r.output) ∧
    (r.exit_code ≠ 0 →
      (∀ msg, utf8Decode r.output = some msg →
        r.unwrap = .error (.runFailure msg)) ∧
      ∀ o, r.unwrap ≠ .ok o) := by
  constructor
  · intro h
    simp [RunResult.unwrap, h]
  · intro h
    constructor
    · intro msg hm
      simp [RunResult.unwrap, h, hm]
    · intro o hcon
      rw [RunResult.unwrap, if_pos h] at hcon
      cases hd : utf8Decode r.output with
      | none => rw [hd] at hcon; exact UnwrapRes.noConfusion hcon
      | some msg => rw [hd] at hcon; exact UnwrapRes.noConfusion hcon

/-- Witness for C4 at concrete run results. -/
theorem c4_unwrap_witness :
    RunResult.unwrap ⟨0, [ 104, 105 ]⟩ = .ok [ 104, 105 ] ∧
    RunResult.unwrap ⟨1, [ 104, 105 ]⟩ = .error (.runFailure [ 104, 105 ]) :=
  ⟨(c4_unwrap_spec ⟨0, [ 104, 105 ]⟩).1 rfl,
   ((c4_unwrap_spec ⟨1, [ 104, 105 ]⟩).2 (by decide)).1 [ 104, 105 ] (by decide)⟩

/-- C5: the claim says `forge_chain_name` removes the fixed prefix `aptos-`
when present and leaves other namespaces unchanged.  The source uses
`lstrip("aptos-")`, which removes the longest leading run of characters in
the set `{a, p, t, o, s, -}`: `aptos-stress` becomes `ressnet` (prefix
removal would give `stressnet`), `potato-forge`, which does not start with
`aptos-`, becomes `forge` instead of staying unchanged, and `aptos-perf`
loses the `p` after the prefix as well, giving `erfnet`. -/
theorem c5_chain_name_strips_charset_not_only_a_fixed_piece :
    forgeChainName "aptos-stress" = "ressnet" ∧
    forgeChainName "aptos-stress" ≠ "stressnet" ∧
    forgeChainName "potato-forge" = "forge" ∧
    forgeChainName "potato-forge" ≠ "potato-forge" ∧
    forgeChainName "aptos-perf" = "erfnet" ∧
    forgeChainName "aptos-perf" ≠ "perfnet" := by
  refine ⟨by decide, by decide, by decide, by decide, by decide, by decide⟩

/-- C6 counterexample: for a SKIP result the appended message is
`Forge skiped` — the lower-cased state name plus `ed` — not the claimed
`Forge skipped`. -/
theorem c6_skip_message_counterexample :
    forgeResultFormat .SKIP ≠ "Forge skipped" ∧
    forgeResultFormat .SKIP = "Forge skiped" := by
  refine ⟨by decide, by decide⟩

/-- C6, amended: the terminal-state message is the lower-cased state name
with `ed` appended — `Forge passed`, `Forge failed`, and (without doubling
the final consonant) `Forge skiped`. -/
theorem c6_terminal_state_messages :
    forgeResultFormat .PASS = "Forge passed" ∧
    forgeResultFormat .FAIL = "Forge failed" ∧
    forgeResultFormat .SKIP = "Forge skiped" := by
  refine ⟨by decide, by decide, by decide⟩

/-- C7: `format_report` returns the report's `text` field when the sentinel
lines enclose valid JSON, and otherwise one of three mutually distinct
diagnostics: the `terminated` diagnostic with no sentinels, a
`malformed`-diagnostic naming the parse error for bad JSON, and the
`text empty` diagnostic for an empty or missing `text` field; no input
raises. -/
theorem c7_format_report_four_outcomes :
    format_report
      "====json-report-begin===\n\x7b\"text\":\"ok\"\x7d\n====json-report-end===" = "ok" ∧
    format_report "Forge output with no sentinel lines" = "Forge test runner terminated" ∧
    format_report "====json-report-begin===\nnot json\n====json-report-end===" =
      "Forge report malformed: Expecting value\nnot json" ∧
    format_report "====json-report-begin===\n\x7b\"text\":\"\"\x7d\n====json-report-end===" =
      "Forge report text empty. See test runner output." ∧
    format_report "====json-report-begin===\n\x7b\"other\":1\x7d\n====json-report-end===" =
      "Forge report text empty. See test runner output." ∧
    ("Forge test runner terminated" ≠ "Forge report malformed: Expecting value\nnot json" ∧
     "Forge test runner terminated" ≠ "Forge report text empty. See test runner output." ∧
     "Forge report malformed: Expecting value\nnot json" ≠
       "Forge report text empty. See test runner output.") := by
  refine ⟨by decide, by decide, by decide, by decide, by decide, by decide, by decide, by decide⟩

/-- C8: the claim says cleanup kills the processes supplied through the
context's `Processes` capability whose name contains `kubectl`.  The
source's cleanup block iterates `psutil.process_iter()` directly and never
consults the capability: a capability-supplied fake named `kubectl-fake`
is not killed (first conjunct), the kill set is exactly the
`kubectl`-named members of the real system process list (second conjunct),
and with a keep flag nothing is killed and the port-forward is left alone
(third conjunct). -/
theorem c8_cleanup_bypasses_processes_capability :
    localRunnerCleanup []
      { contextProcesses := [ ⟨"kubectl-fake"⟩ ], systemProcesses := [ ⟨"bash"⟩ ] } =
      { killed := [], portForwardTerminated := true, portForwardJoined := true } ∧
    localRunnerCleanup []
      { contextProcesses := [], systemProcesses := [ ⟨"kubectl"⟩, ⟨"bash"⟩, ⟨"kubectl proxy"⟩ ] } =
      { killed := [ ⟨"kubectl"⟩, ⟨"kubectl proxy"⟩ ], portForwardTerminated := true,
        portForwardJoined := true } ∧
    localRunnerCleanup [ "--keep" ]
      { contextProcesses := [ ⟨"kubectl-fake"⟩ ], systemProcesses := [ ⟨"kubectl"⟩ ] } =
      { killed := [], portForwardTerminated := false, portForwardJoined := false } := by
  refine ⟨by decide, by decide, by decide⟩

/-- C9: the claim says both link builders, given `time_filter = (t0, t1)`,
produce an absolute-window fragment containing both timestamps.  The
validator-logs builder does (fourth and fifth conjuncts), and both
relative-window fragments are the fixed strings (sixth and seventh); but
the dashboard builder computes `int(dt.strftime("%f")) / 1000` — the
microsecond-within-second over 1000 — so its absolute fragment for two
whole-second timestamps is `&from=0.0&to=0.0`: it contains neither
timestamp (third conjunct) and coincides with the fragment of a completely
different time pair (second conjunct). -/
theorem c9_dashboard_absolute_window_loses_timestamps :
    get_dashboard_link "forge-big" "ns" "chain"
      (.pair ⟨2022, 7, 29, 0, 0, 0, 0⟩ ⟨2022, 7, 29, 1, 0, 0, 0⟩) =
      .ok (DEVINFRA_GRAFANA_BASE_URL ++
        "&var-namespace=ns&var-chain_name=chain&from=0.0&to=0.0") ∧
    get_dashboard_link "forge-big" "ns" "chain"
      (.pair ⟨2022, 7, 29, 0, 0, 0, 0⟩ ⟨2022, 7, 29, 1, 0, 0, 0⟩) =
    get_dashboard_link "forge-big" "ns" "chain"
      (.pair ⟨1999, 1, 1, 3, 4, 5, 0⟩ ⟨2000, 2, 2, 6, 7, 8, 0⟩) ∧
    linkContains (get_dashboard_link "forge-big" "ns" "chain"
      (.pair ⟨2022, 7, 29, 0, 0, 0, 0⟩ ⟨2022, 7, 29, 1, 0, 0, 0⟩))
      "2022-07-29T00:00:00.000Z" = false ∧
    linkContains (get_validator_logs_link "ns" "chain"
      (.pair ⟨2022, 7, 29, 0, 0, 0, 0⟩ ⟨2022, 7, 29, 1, 0, 0, 0⟩))
      "2022-07-29T00:00:00.000Z" = true ∧
    linkContains (get_validator_logs_link "ns" "chain"
      (.pair ⟨2022, 7, 29, 0, 0, 0, 0⟩ ⟨2022, 7, 29, 1, 0, 0, 0⟩))
      "2022-07-29T01:00:00.000Z" = true ∧
    grafanaTimeFilter (.bool true) = .ok "&refresh=10s&from=now-15m&to=now" ∧
    esTimeFilter (.bool true) =
      .ok "refreshInterval:(pause:!f,value:10000),time:(from:now-15m,to:now)" := by
  refine ⟨by decide, by decide, by decide, by decide, by decide, by decide, by decide⟩

/-- With recording off, a sentinel-free run of lines contributes nothing. -/
theorem collect_off_no_sentinels (A : List String)
    (h : ∀ l ∈ A, isSentinel l = false) : collectReportLines A false = [] := by
  induction A with
  | nil => rfl
  | cons a rest ih =>
    have ha : isSentinel a = false := h a (by simp)
    simp [collectReportLines, ha]
    exact ih (fun l hl => h l (by simp [hl]))

/-- With recording on, a sentinel-free run of lines is captured verbatim;
in particular a begin sentinel with no matching end sentinel captures
everything to the end of the output. -/
theorem collect_on_no_sentinels (B : List String)
    (h : ∀ l ∈ B, isSentinel l = false) : collectReportLines B true = B := by
  induction B with
  | nil => rfl
  | cons b rest ih =>
    have hb : isSentinel b = false := h b (by simp)
    simp [collectReportLines, hb]
    exact ih (fun l hl => h l (by simp [hl]))

/-- With recording off, scanning past a sentinel-free run and a sentinel
line continues with recording on. -/
theorem collect_off_append (A : List String) (s : String) (rest : List String)
    (hA : ∀ l ∈ A, isSentinel l = false) (hs : isSentinel s = true) :
    collectReportLines (A ++ s :: rest) false = collectReportLines rest true := by
  induction A with
  | nil => simp [collectReportLines, hs]
  | cons a arest ih =>
    have ha : isSentinel a = false := hA a (by simp)
    simp only [List.cons_append, collectReportLines, ha]
    simp only [Bool.false_eq_true, if_false]
    exact ih (fun l hl => hA l (by simp [hl]))

/-- With recording on, a sentinel-free run followed by a sentinel line is
captured, and scanning continues with recording off: sentinel lines never
enter the captured content. -/
theorem collect_on_append (B : List String) (s : String) (rest : List String)
    (hB : ∀ l ∈ B, isSentinel l = false) (hs : isSentinel s = true) :
    collectReportLines (B ++ s :: rest) true = B ++ collectReportLines rest false := by
  induction B with
  | nil => simp [collectReportLines, hs]
  | cons b brest ih =>
    have hb : isSentinel b = false := hB b (by simp)
    simp only [List.cons_append, collectReportLines, hb]
    simp only [Bool.false_eq_true, if_false, if_true]
    exact congrArg (fun t => b :: t) (ih (fun l hl => hB l (by simp [hl])))

/-- No captured line is a sentinel line, whatever the scan state. -/
theorem collect_never_captures_sentinels (L : List String) :
    ∀ r l, l ∈ collectReportLines L r → isSentinel l = false := by
  induction L with
  | nil => intro r l hl; simp [collectReportLines] at hl
  | cons a rest ih =>
    intro r l hl
    by_cases ha : isSentinel a = true
    · rw [collectReportLines, if_pos ha] at hl
      exact ih (!r) l hl
    · have ha' : isSentinel a = false := by
        cases h : isSentinel a
        · rfl
        · exact absurd h ha
      rw [collectReportLines, if_neg (by simp [ha'])] at hl
      cases r with
      | false => exact ih false l (by simpa using hl)
      | true =>
        simp at hl
        cases hl with
        | inl he => rw [he]; exact ha'
        | inr hm => exact ih true l hm

/-- C10: every line equal to either sentinel toggles recording — lines
strictly between an odd-numbered sentinel occurrence and the next sentinel
are captured (conjuncts 2 and 4 step the scan across such a segment,
conjuncts 1 and 3 describe the two scan states on sentinel-free input);
sentinel lines themselves are never captured (conjunct 5); the captured
lines are joined with no separator before JSON parsing (conjunct 6: the
report text survives being split mid-token across two lines); and a begin
sentinel with no matching end sentinel still captures through the end of
output instead of producing any unterminated-report diagnostic
(conjunct 7). -/
theorem c10_sentinel_toggle_semantics :
    (∀ A, (∀ l ∈ A, isSentinel l = false) → collectReportLines A false = []) ∧
    (∀ A s rest, (∀ l ∈ A, isSentinel l = false) → isSentinel s = true →
      collectReportLines (A ++ s :: rest) false = collectReportLines rest true) ∧
    (∀ B, (∀ l ∈ B, isSentinel l = false) → collectReportLines B true = B) ∧
    (∀ B s rest, (∀ l ∈ B, isSentinel l = false) → isSentinel s = true →
      collectReportLines (B ++ s :: rest) true = B ++ collectReportLines rest false) ∧
    (∀ L r l, l ∈ collectReportLines L r → isSentinel l = false) ∧
    format_report
      "====json-report-begin===\n\x7b\"text\":\"o\nk\"\x7d\n====json-report-end===" = "ok" ∧
    format_report "intro line\n====json-report-begin===\n\x7b\"text\":\"ok\"\x7d" = "ok" := by
  refine ⟨collect_off_no_sentinels, collect_off_append, collect_on_no_sentinels,
    collect_on_append, fun L r l h => collect_never_captures_sentinels L r l h,
    by decide, by decide⟩

/-- Witness for C10 at concrete line lists. -/
theorem c10_sentinel_toggle_witness :
    collectReportLines ([ "a" ] ++ REPORT_BEGIN :: [ "b" ]) false =
      collectReportLines [ "b" ] true ∧
    collectReportLines [ "b" ] true = [ "b" ] :=
  ⟨c10_sentinel_toggle_semantics.2.1 [ "a" ] REPORT_BEGIN [ "b" ]
      (by decide) (by decide),
   c10_sentinel_toggle_semantics.2.2.1 [ "b" ] (by decide)⟩

end ForgeSpec

